import Mathlib

/-!
Shallow embedding of `src/app.py` (a single-script soil-moisture dashboard):
the data model, the HTTP fetch logic, the series cleaning, the chart axis
setup, and the invocation of the external forecasting library, together with
theorems settling the specification claims.

Conventions: Python floats are embedded as `ℚ`; a JSON body is an inductive
`Json` value; a date is a day number (`Nat`); the fitted internals of the
external forecasting library are abstract parameters, only its documented
date-shape contract is modelled.
-/

set_option autoImplicit false

namespace DataFarm

/-- A JSON value, for the body of the HTTP response (`response.json()`). -/
inductive Json where
  | null : Json
  | num : ℚ → Json
  | str : String → Json
  | arr : List Json → Json
  | obj : List (String × Json) → Json
  deriving Repr

/-- Dictionary lookup `d[k]` / the `k in d` test on a JSON object.
Returns `none` when the value is not an object or the key is absent. -/
def Json.get : Json → String → Option Json
  | .obj fields, k => fields.lookup k
  | _, _ => none

/-- Python truthiness of a JSON value (`if data`): empty containers, `0`,
the empty string and `None` are falsy. -/
def Json.truthy : Json → Bool
  | .null => false
  | .num q => q != 0
  | .str s => s != ""
  | .arr xs => !xs.isEmpty
  | .obj fields => !fields.isEmpty

/-- The `parameter in data` membership test of line 72, for the case the
source exercises: `data` is a JSON object and membership is a key test.
(On non-container values Python would raise; no claim reaches that case.) -/
def Json.member (j : Json) (k : String) : Bool :=
  match j with
  | .obj fields => fields.any (fun p => p.1 == k)
  | .arr xs => xs.any (fun x => match x with | .str s => s == k | _ => false)
  | _ => false

/-- A user-facing message emitted through the UI framework
(`st.error` / `st.info` / `st.success`). -/
inductive Message where
  | error : String → Message
  | info : String → Message
  | success : String → Message
  deriving Repr, DecidableEq

/-- An HTTP response as seen by `fetch_nasa_power_data`: a status code and a
parsed JSON body. -/
structure Response where
  status_code : Nat
  body : Json

/-- Line 18: the fixed NASA POWER endpoint. -/
def NASA_POWER_API : String := "https://power.larc.nasa.gov/api/temporal/daily/point"

/-- Line 46: the fixed start date. -/
def start_date : String := "19810101"

/-- Line 50: the URL built by `fetch_nasa_power_data`, with `lat`, `lon` and
the current date already rendered as strings (Python interpolates them into
an f-string). -/
def fetchURL (lat lon parameter current_date : String) : String :=
  NASA_POWER_API ++ "?parameters=" ++ parameter ++ "&community=ag&longitude=" ++ lon
    ++ "&latitude=" ++ lat ++ "&start=" ++ start_date ++ "&end=" ++ current_date
    ++ "&format=JSON"

/-- The URL template the spec describes: endpoint then
`parameters`, `community=ag`, `longitude`, `latitude`, `start=19810101`,
`end=<today>`, `format=JSON`, in that order.  Written from the spec's words,
to be compared with `fetchURL`. -/
def specURLTemplate (lat lon code today : String) : String :=
  "https://power.larc.nasa.gov/api/temporal/daily/point?parameters=" ++ code
    ++ "&community=ag&longitude=" ++ lon ++ "&latitude=" ++ lat
    ++ "&start=19810101&end=" ++ today ++ "&format=JSON"

/-- Result of one call to `fetch_nasa_power_data`: the value returned
(`data['properties']['parameter']`, or `None`) and the messages shown. -/
structure FetchResult where
  result : Option Json
  messages : List Message

/-- Lines 54..61 of `fetch_nasa_power_data`: on status 200, return the nested
`properties.parameter` field when present, else show the no-data error; on any
other status show the location error; in both error cases return `None`. -/
def fetch_nasa_power_data (resp : Response) : FetchResult :=
  if resp.status_code = 200 then
    match (resp.body.get "properties").bind (fun props => props.get "parameter") with
    | some pm => { result := some pm, messages := [] }
    | none =>
        { result := none
          messages := [.error "No data available for the specified soil-level parameter."] }
  else
    { result := none
      messages := [.error "It appears the selected area may not contain soil moisture data. Could you please verify the location or select a different area for analysis?"] }

/-- Lines 21..25: map from API parameter codes to user-facing labels. -/
def parameter_labels : List (String × String) :=
  [("GWETTOP", "0 - 5 cm"), ("GWETROOT", "0 - 100 cm"), ("GWETPROF", "0 to bedrock")]

/-- Line 28: the reversed dictionary, label back to API code. -/
def label_to_parameter : List (String × String) :=
  parameter_labels.map (fun p => (p.2, p.1))

/-! ## Series cleaning (lines 72..77) -/

/-- One fetched column: a mapping from date strings to raw float values. -/
abbrev RawSeries := List (String × ℚ)

/-- A cleaned column: missing values (`np.nan`) are `none`. -/
abbrev CleanSeries := List (String × Option ℚ)

/-- Line 74, per value: `.replace(-999, np.nan)` turns the sentinel into the
missing-value marker and leaves every other value unchanged. -/
def replaceSentinel (v : ℚ) : Option ℚ :=
  if v = -999 then none else some v

/-- Line 74, per column: apply the sentinel replacement to every entry of a
fetched date-to-value mapping. -/
def cleanSeries (s : RawSeries) : CleanSeries :=
  s.map (fun p => (p.1, replaceSentinel p.2))

/-- Line 74, whole frame: `pd.DataFrame.from_dict(data).replace(-999, np.nan)`
applied to the mapping of parameter code to series. -/
def cleanFrame (data : List (String × RawSeries)) : List (String × CleanSeries) :=
  data.map (fun p => (p.1, cleanSeries p.2))

/-! ## Date parsing (line 77) -/

/-- The numeric value of a decimal digit character, `none` otherwise. -/
def digitVal (c : Char) : Option Nat :=
  if c.isDigit then some (c.toNat - 48) else none

/-- Read a block of digit characters as a decimal number (most significant
first); fails on any non-digit. -/
def parseDigits (cs : List Char) : Option Nat :=
  cs.foldl (fun acc c => acc.bind (fun n => (digitVal c).map (fun d => 10 * n + d)))
    (some 0)

/-- Gregorian leap-year test. -/
def isLeapYear (y : Nat) : Bool :=
  (y % 4 == 0 && y % 100 != 0) || y % 400 == 0

/-- Days in month `m` of year `y` (Gregorian calendar). -/
def daysInMonth (y m : Nat) : Nat :=
  if m = 2 then (if isLeapYear y then 29 else 28)
  else if m = 4 ∨ m = 6 ∨ m = 9 ∨ m = 11 then 30
  else 31

/-- A valid Gregorian calendar date with a four-digit year. -/
def validDate (y m d : Nat) : Prop :=
  y ≤ 9999 ∧ 1 ≤ m ∧ m ≤ 12 ∧ 1 ≤ d ∧ d ≤ daysInMonth y m

instance (y m d : Nat) : Decidable (validDate y m d) := by
  unfold validDate; infer_instance

/-- Line 77: `pd.to_datetime(index, format='%Y%m%d')` on one index entry —
the first four characters are the year, the next two the month, the last two
the day, and the result must be a real calendar date; anything else fails. -/
def parseYYYYMMDD (s : String) : Option (Nat × Nat × Nat) :=
  match s.data with
  | [y1, y2, y3, y4, m1, m2, d1, d2] =>
    (parseDigits [y1, y2, y3, y4]).bind (fun y =>
      (parseDigits [m1, m2]).bind (fun m =>
        (parseDigits [d1, d2]).bind (fun d =>
          if validDate y m d then some (y, m, d) else none)))
  | _ => none

/-- The digit character for `n % 10`. -/
def digitChar (n : Nat) : Char := Char.ofNat (48 + n % 10)

/-- Render a calendar date in the fixed 8-digit `YYYYMMDD` format (the format
the spec says the date strings are in). -/
def formatYYYYMMDD (y m d : Nat) : String :=
  String.mk [digitChar (y / 1000), digitChar (y / 100), digitChar (y / 10), digitChar y,
    digitChar (m / 10), digitChar m, digitChar (d / 10), digitChar d]

/-! ## Chart axis setup (lines 81..180)

Each figure's axis-level configuration: the horizontal reference lines added
with `ax.axhline` (in source order) and the y-range set with `ax.set_ylim`
(`none` when the source never sets it). -/

/-- Axis configuration of one rendered chart. -/
structure Axes where
  hlines : List ℚ
  ylim : Option (ℚ × ℚ)
  deriving Repr, DecidableEq

/-- Lines 87..91, raw-history chart: reference lines 0.2 and 0.6, y-range
(0, 1). -/
def fig1Axes : Axes := { hlines := [0.2, 0.6], ylim := some (0, 1) }

/-- Lines 129..136, forecast chart: reference lines 0.2 and 0.6, y-range
(0, 1). -/
def fig2Axes : Axes := { hlines := [0.2, 0.6], ylim := some (0, 1) }

/-- Lines 151..157, historical-trend chart: reference lines 0.2 and 0.6,
y-range (0, 1). -/
def fig3Axes : Axes := { hlines := [0.2, 0.6], ylim := some (0, 1) }

/-- Lines 164..180, seasonal-cycle chart: the source adds no `axhline` and
sets no `ylim` on `ax4`. -/
def fig4Axes : Axes := { hlines := [], ylim := none }

/-- The four charts rendered by the success path, in render order. -/
def renderedCharts : List Axes := [fig1Axes, fig2Axes, fig3Axes, fig4Axes]

/-! ## Top-level script flow (lines 64..183) -/

/-- A map click: the `(lat, lng)` pair from `map_data["last_clicked"]`. -/
structure Coord where
  lat : ℚ
  lng : ℚ

/-- What one interaction renders: the charts produced (axis level), the
messages shown, and whether an HTTP request was issued. -/
structure RenderOutput where
  charts : List Axes
  messages : List Message
  requested : Bool
  deriving Repr

/-- Lines 70..180: the branch taken after a location is selected.  `resp` is
the response the external API returns for this request.  When the fetched
data is truthy and contains the selected parameter, the four charts are
rendered after the success message; otherwise nothing further is rendered
(the `else` on line 182 belongs to the outer click test). -/
def runWithClick (parameter : String) (resp : Response) : RenderOutput :=
  let fr := fetch_nasa_power_data resp
  match fr.result with
  | some data =>
    if data.truthy && data.member parameter then
      { charts := renderedCharts
        messages := fr.messages ++ [.success "Data fetched successfully! Performing analysis..."]
        requested := true }
    else
      { charts := [], messages := fr.messages, requested := true }
  | none => { charts := [], messages := fr.messages, requested := true }

/-- Lines 64..183: the whole interaction.  `map_data` is `none` when the map
widget returned nothing falsy, `some none` when `last_clicked` is empty, and
`some (some c)` for a recorded click at `c`.  `respond` gives the API's
response for a clicked coordinate; it is consulted only when a request is
issued. -/
def runScript (map_data : Option (Option Coord)) (parameter : String)
    (respond : Coord → Response) : RenderOutput :=
  match map_data with
  | some (some c) => runWithClick parameter (respond c)
  | _ =>
    { charts := []
      messages := [.info "Click on the map to select a location for analysis."]
      requested := false }

/-! ## Forecast invocation (lines 108..126)

The forecasting library is external (`from prophet import Prophet`); its
fitted numeric output is not code of this repository.  Modelled from the
spec: the library "returns a table with point estimate, lower/upper interval,
trend, and seasonal components per date", and `make_future_dataframe` extends
the history "365 days past the last observed date".  The numeric components
stay an abstract parameter `comps`; only the date shape is modelled. -/

/-- One row of the forecast table: the date and the library-owned numeric
columns. -/
structure ForecastRow where
  ds : Nat
  yhat : ℚ
  yhat_lower : ℚ
  yhat_upper : ℚ
  trend : ℚ
  deriving Repr, DecidableEq

/-- The library-owned numeric columns for one date. -/
structure Comps where
  yhat : ℚ
  yhat_lower : ℚ
  yhat_upper : ℚ
  trend : ℚ

/-- A fitted model: the history dates it was fitted on (line 114,
`model.fit(df_prophet)`) plus the abstract fitted components. -/
structure ProphetModel where
  history : List Nat
  comps : Nat → Comps

/-- Modelled from the spec: `model.fit(df_prophet)` records the history dates
of the two-column table; the fitted numeric behaviour `comps` is owned by the
library and left abstract. -/
def Prophet.fit (comps : Nat → Comps) (df_prophet : List (Nat × ℚ)) : ProphetModel :=
  { history := df_prophet.map (fun p => p.1), comps := comps }

/-- The last observed date of a history (day numbers). -/
def lastDate (history : List Nat) : Nat := history.foldl max 0

/-- Modelled from the spec: `model.make_future_dataframe(periods=365)` — the
historical dates followed by `periods` consecutive days past the last
observed date. -/
def make_future_dataframe (m : ProphetModel) (periods : Nat) : List Nat :=
  m.history ++ (List.range periods).map (fun i => lastDate m.history + 1 + i)

/-- Modelled from the spec: `model.predict(future)` returns one row per date
of the supplied future dataframe, carrying the fitted components. -/
def Prophet.predict (m : ProphetModel) (future : List Nat) : List ForecastRow :=
  future.map (fun d =>
    { ds := d, yhat := (m.comps d).yhat, yhat_lower := (m.comps d).yhat_lower,
      yhat_upper := (m.comps d).yhat_upper, trend := (m.comps d).trend })

/-- `DataFrame.tail(n)`: the last `n` rows. -/
def tailRows {α : Type} (xs : List α) (n : Nat) : List α :=
  xs.drop (xs.length - n)

/-- Line 121: `forecast.tail(365)`, the rows the forecast chart plots. -/
def forecast_zoomed (forecast : List ForecastRow) : List ForecastRow :=
  tailRows forecast 365

/-- Lines 125..126: the data series the forecast chart draws — the dates, the
point estimates, and the lower and upper edges of the uncertainty band. -/
structure Fig2Data where
  ds : List Nat
  yhat : List ℚ
  band_lower : List ℚ
  band_upper : List ℚ
  deriving Repr, DecidableEq

/-- Lines 125..126 applied to `forecast_zoomed`. -/
def fig2Data (fz : List ForecastRow) : Fig2Data :=
  { ds := fz.map (fun r => r.ds), yhat := fz.map (fun r => r.yhat),
    band_lower := fz.map (fun r => r.yhat_lower),
    band_upper := fz.map (fun r => r.yhat_upper) }

/-- Lines 113..118 composed: the full forecast table computed from the
two-column history table. -/
def forecastOf (comps : Nat → Comps) (df_prophet : List (Nat × ℚ)) : List ForecastRow :=
  Prophet.predict (Prophet.fit comps df_prophet)
    (make_future_dataframe (Prophet.fit comps df_prophet) 365)

/-- The 365 dates past the last observed date of the history: the future
extension added by `make_future_dataframe`. -/
def futureDates (df_prophet : List (Nat × ℚ)) : List Nat :=
  (List.range 365).map (fun i => lastDate (df_prophet.map (fun p => p.1)) + 1 + i)

/-! ## Theorems settling the claims -/

/-- C1: after the cleaning on line 74, no value of any cleaned series equals
the sentinel -999 (first conjunct), and every occurrence of -999 in the
fetched mapping is replaced by the missing-value marker (second conjunct). -/
theorem sentinel_always_cleaned (data : List (String × RawSeries)) :
    (∀ p s, (p, s) ∈ cleanFrame data → ∀ e ∈ s, e.2 ≠ some (-999 : ℚ)) ∧
    (∀ p s, (p, s) ∈ data → ∀ d0, (d0, (-999 : ℚ)) ∈ s →
      (d0, (none : Option ℚ)) ∈ cleanSeries s) := by
  constructor
  · intro p s hs e he hcontra
    rw [cleanFrame, List.mem_map] at hs
    obtain ⟨a, _, heq⟩ := hs
    obtain ⟨-, rfl⟩ := Prod.mk.injEq _ _ _ _ ▸ heq
    rw [cleanSeries, List.mem_map] at he
    obtain ⟨b, _, rfl⟩ := he
    rw [replaceSentinel] at hcontra
    split at hcontra
    · exact Option.noConfusion hcontra
    · rename_i hne
      exact hne (Option.some.inj hcontra)
  · intro p s _ d0 hmem
    have h := List.mem_map_of_mem (fun q => (q.1, replaceSentinel q.2)) hmem
    simpa [replaceSentinel, cleanSeries] using h

/-- Witness for `sentinel_always_cleaned` at a concrete fetched mapping with
one sentinel entry and one ordinary entry. -/
theorem sentinel_always_cleaned_witness :
    (("19810102", some (1/2 : ℚ)) : String × Option ℚ).2 ≠ some (-999 : ℚ) ∧
    ("19810101", (none : Option ℚ)) ∈
      cleanSeries [("19810101", (-999 : ℚ)), ("19810102", (1/2 : ℚ))] :=
  ⟨(sentinel_always_cleaned [("GWETTOP", [("19810101", -999), ("19810102", 1/2)])]).1
      "GWETTOP" (cleanSeries [("19810101", -999), ("19810102", 1/2)])
      (by simp [cleanFrame])
      ("19810102", some (1/2))
      (by norm_num [cleanSeries, replaceSentinel]),
    (sentinel_always_cleaned [("GWETTOP", [("19810101", -999), ("19810102", 1/2)])]).2
      "GWETTOP" [("19810101", -999), ("19810102", 1/2)]
      (by simp) "19810101" (by norm_num)⟩

/-- C2: for every latitude, longitude, parameter code and current date, the
URL built on line 50 equals the fixed template the spec describes, query
parameters in the stated order. -/
theorem fetch_url_matches_spec_template (lat lon code today : String) :
    fetchURL lat lon code today = specURLTemplate lat lon code today := by
  unfold fetchURL specURLTemplate NASA_POWER_API start_date
  congr 1
  congr 1
  rw [String.append_assoc, String.append_assoc]
  rw [show ("&start=" ++ ("19810101" ++ "&end=") : String) = "&start=19810101&end=" from rfl]
  congr 1

/-- C3: on any response whose status code is not 200, the fetch returns no
result, shows exactly the location error message, and the interaction renders
no chart. -/
theorem non_200_shows_error_and_no_chart (c : Coord) (param : String)
    (respond : Coord → Response) (h : (respond c).status_code ≠ 200) :
    (fetch_nasa_power_data (respond c)).result = none ∧
    (fetch_nasa_power_data (respond c)).messages =
      [.error "It appears the selected area may not contain soil moisture data. Could you please verify the location or select a different area for analysis?"] ∧
    (runScript (some (some c)) param respond).charts = [] := by
  refine ⟨?_, ?_, ?_⟩ <;>
    simp [runScript, runWithClick, fetch_nasa_power_data, h]

/-- Witness for `non_200_shows_error_and_no_chart` at a concrete 404
response. -/
theorem non_200_shows_error_and_no_chart_witness :
    (fetch_nasa_power_data { status_code := 404, body := .null }).result = none ∧
    (fetch_nasa_power_data { status_code := 404, body := .null }).messages =
      [.error "It appears the selected area may not contain soil moisture data. Could you please verify the location or select a different area for analysis?"] ∧
    (runScript (some (some ⟨0, 0⟩)) "GWETTOP"
      (fun _ => { status_code := 404, body := .null })).charts = [] :=
  non_200_shows_error_and_no_chart ⟨0, 0⟩ "GWETTOP"
    (fun _ => { status_code := 404, body := .null }) (by decide)

/-- C4: on a 200 response whose JSON body lacks the nested
`properties.parameter` field (the field that carries the parameter series),
the fetch returns no result, shows exactly the no-data error message, and the
interaction renders no chart.  (When the field is present but the selected
code is absent inside it, line 72 still renders no chart, silently; that case
is outside this antecedent.) -/
theorem missing_nested_field_shows_error_and_no_chart (c : Coord) (param : String)
    (respond : Coord → Response) (h200 : (respond c).status_code = 200)
    (hmiss : ((respond c).body.get "properties").bind
      (fun props => props.get "parameter") = none) :
    (fetch_nasa_power_data (respond c)).result = none ∧
    (fetch_nasa_power_data (respond c)).messages =
      [.error "No data available for the specified soil-level parameter."] ∧
    (runScript (some (some c)) param respond).charts = [] := by
  refine ⟨?_, ?_, ?_⟩ <;>
    simp [runScript, runWithClick, fetch_nasa_power_data, h200, hmiss]

/-- Witness for `missing_nested_field_shows_error_and_no_chart` at a concrete
200 response with an empty JSON object body. -/
theorem missing_nested_field_shows_error_and_no_chart_witness :
    (fetch_nasa_power_data { status_code := 200, body := .obj [] }).result = none ∧
    (fetch_nasa_power_data { status_code := 200, body := .obj [] }).messages =
      [.error "No data available for the specified soil-level parameter."] ∧
    (runScript (some (some ⟨0, 0⟩)) "GWETTOP"
      (fun _ => { status_code := 200, body := .obj [] })).charts = [] :=
  missing_nested_field_shows_error_and_no_chart ⟨0, 0⟩ "GWETTOP"
    (fun _ => { status_code := 200, body := .obj [] }) rfl rfl

/-- C5 counterexample: it is not the case that every one of the four rendered
charts carries the 0.2 and 0.6 threshold lines and the y-range cap (0, 1) —
the fourth (seasonal-cycle) chart, lines 164..180, has neither. -/
theorem every_chart_capped_and_annotated_false : ¬ ∀ a ∈ renderedCharts,
    (0.2 : ℚ) ∈ a.hlines ∧ (0.6 : ℚ) ∈ a.hlines ∧ a.ylim = some (0, 1) := by
  intro h
  have h4 := h fig4Axes (by simp [renderedCharts])
  simp [fig4Axes] at h4

/-- C5 amended: the raw-history, forecast and historical-trend charts each
have y-range capped to (0, 1) and the two threshold lines 0.2 and 0.6 in that
order; the seasonal-cycle chart has no threshold line and no y-range cap. -/
theorem first_three_charts_capped_fourth_bare :
    fig1Axes.hlines = [0.2, 0.6] ∧ fig1Axes.ylim = some (0, 1) ∧
    fig2Axes.hlines = [0.2, 0.6] ∧ fig2Axes.ylim = some (0, 1) ∧
    fig3Axes.hlines = [0.2, 0.6] ∧ fig3Axes.ylim = some (0, 1) ∧
    fig4Axes.hlines = [] ∧ fig4Axes.ylim = none :=
  ⟨rfl, rfl, rfl, rfl, rfl, rfl, rfl, rfl⟩

/-- C6: for any history of at least the library minimum of two rows, the
forecast table has exactly `historical_length + 365` rows, and its dates are
the historical dates followed by the 365 days past the last observed date. -/
theorem forecast_covers_history_plus_365 (comps : Nat → Comps)
    (df : List (Nat × ℚ)) (h : 2 ≤ df.length) :
    (forecastOf comps df).length = df.length + 365 ∧
    (forecastOf comps df).map (fun r => r.ds) =
      df.map (fun p => p.1) ++ futureDates df := by
  constructor
  · simp [forecastOf, Prophet.predict, make_future_dataframe, Prophet.fit]
  · simp [forecastOf, Prophet.predict, make_future_dataframe, Prophet.fit, futureDates,
      List.map_map, Function.comp_def]

/-- Witness for `forecast_covers_history_plus_365` at a concrete two-row
history. -/
theorem forecast_covers_history_plus_365_witness :
    (forecastOf (fun _ => ⟨0, 0, 0, 0⟩) [(0, 0), (1, 0)]).length =
      [((0 : Nat), (0 : ℚ)), (1, 0)].length + 365 ∧
    (forecastOf (fun _ => ⟨0, 0, 0, 0⟩) [(0, 0), (1, 0)]).map (fun r => r.ds) =
      [((0 : Nat), (0 : ℚ)), (1, 0)].map (fun p => p.1) ++ futureDates [(0, 0), (1, 0)] :=
  forecast_covers_history_plus_365 (fun _ => ⟨0, 0, 0, 0⟩) [(0, 0), (1, 0)] (by simp)

/-- C7: parsing a calendar date rendered in the fixed 8-digit YYYYMMDD format
recovers exactly that date, for every valid Gregorian date (leap days
included). -/
theorem yyyymmdd_parse_correct (y m d : Nat) (h : validDate y m d) :
    parseYYYYMMDD (formatYYYYMMDD y m d) = some (y, m, d) := by
  obtain ⟨hy, hm1, hm2, hd1, hd2⟩ := h
  have hd31 : d ≤ 31 := by
    unfold daysInMonth at hd2
    split at hd2 <;> [skip; split at hd2 <;> omega]
    split at hd2 <;> omega
  have hdig : ∀ j, j < 10 → digitVal (Char.ofNat (48 + j)) = some j := by decide
  have h2 : ∀ a b : Nat, parseDigits [digitChar a, digitChar b] =
      some (10 * (a % 10) + b % 10) := by
    intro a b
    have ha := hdig (a % 10) (Nat.mod_lt _ (by omega))
    have hb := hdig (b % 10) (Nat.mod_lt _ (by omega))
    simp [parseDigits, digitChar, ha, hb]
  have h4 : ∀ a b c e : Nat, parseDigits [digitChar a, digitChar b, digitChar c, digitChar e] =
      some (10 * (10 * (10 * (a % 10) + b % 10) + c % 10) + e % 10) := by
    intro a b c e
    have ha := hdig (a % 10) (Nat.mod_lt _ (by omega))
    have hb := hdig (b % 10) (Nat.mod_lt _ (by omega))
    have hc := hdig (c % 10) (Nat.mod_lt _ (by omega))
    have he := hdig (e % 10) (Nat.mod_lt _ (by omega))
    simp [parseDigits, digitChar, ha, hb, hc, he]
  have hstep : parseYYYYMMDD (formatYYYYMMDD y m d) =
      (parseDigits [digitChar (y / 1000), digitChar (y / 100), digitChar (y / 10), digitChar y]).bind
        (fun yv => (parseDigits [digitChar (m / 10), digitChar m]).bind
          (fun mv => (parseDigits [digitChar (d / 10), digitChar d]).bind
            (fun dv => if validDate yv mv dv then some (yv, mv, dv) else none))) := rfl
  have hyv : 10 * (10 * (10 * (y / 1000 % 10) + y / 100 % 10) + y / 10 % 10) + y % 10 = y := by
    omega
  have hmv : 10 * (m / 10 % 10) + m % 10 = m := by omega
  have hdv : 10 * (d / 10 % 10) + d % 10 = d := by omega
  rw [hstep, h4, h2, h2]
  simp only [Option.some_bind]
  rw [hyv, hmv, hdv, if_pos]
  exact ⟨hy, hm1, hm2, hd1, hd2⟩

/-- Witness for `yyyymmdd_parse_correct` at the two boundary cases the claim
names: the fixed start date and a leap day. -/
theorem yyyymmdd_parse_correct_witness :
    parseYYYYMMDD "19810101" = some (1981, 1, 1) ∧
    parseYYYYMMDD "20000229" = some (2000, 2, 29) :=
  ⟨yyyymmdd_parse_correct 1981 1 1 (by decide),
    yyyymmdd_parse_correct 2000 2 29 (by decide)⟩

/-- C8: the label map and its reversal form a bidirectional mapping over
exactly the three parameter codes: each code maps to its label and back, and
each label maps to its code and back. -/
theorem parameter_mapping_bidirectional :
    parameter_labels.lookup "GWETTOP" = some "0 - 5 cm" ∧
    parameter_labels.lookup "GWETROOT" = some "0 - 100 cm" ∧
    parameter_labels.lookup "GWETPROF" = some "0 to bedrock" ∧
    label_to_parameter.lookup "0 - 5 cm" = some "GWETTOP" ∧
    label_to_parameter.lookup "0 - 100 cm" = some "GWETROOT" ∧
    label_to_parameter.lookup "0 to bedrock" = some "GWETPROF" := by
  decide

/-- C9: with no recorded map click (widget output falsy, or `last_clicked`
empty), the interaction issues no HTTP request, renders no chart, and shows
only the informational prompt. -/
theorem no_click_no_request_no_chart (param : String) (respond : Coord → Response) :
    runScript none param respond =
      { charts := [], messages := [.info "Click on the map to select a location for analysis."],
        requested := false } ∧
    runScript (some none) param respond =
      { charts := [], messages := [.info "Click on the map to select a location for analysis."],
        requested := false } :=
  ⟨rfl, rfl⟩

/-- C10: `forecast.tail(365)` on line 121 is exactly the 365-day future
extension of the forecast table, and the forecast chart draws exactly the
dates, point estimates and uncertainty band of those last 365 rows. -/
theorem forecast_chart_plots_last_365_rows (comps : Nat → Comps) (df : List (Nat × ℚ)) :
    forecast_zoomed (forecastOf comps df) =
      Prophet.predict (Prophet.fit comps df) (futureDates df) ∧
    fig2Data (forecast_zoomed (forecastOf comps df)) =
      { ds := futureDates df,
        yhat := (futureDates df).map (fun d0 => (comps d0).yhat),
        band_lower := (futureDates df).map (fun d0 => (comps d0).yhat_lower),
        band_upper := (futureDates df).map (fun d0 => (comps d0).yhat_upper) } := by
  have hzoom : forecast_zoomed (forecastOf comps df) =
      Prophet.predict (Prophet.fit comps df) (futureDates df) := by
    unfold forecast_zoomed tailRows forecastOf
    have hsplit : Prophet.predict (Prophet.fit comps df)
        (make_future_dataframe (Prophet.fit comps df) 365) =
        Prophet.predict (Prophet.fit comps df) (df.map (fun p => p.1)) ++
          Prophet.predict (Prophet.fit comps df) (futureDates df) := by
      simp [Prophet.predict, make_future_dataframe, Prophet.fit, futureDates, List.map_append]
    rw [hsplit, List.length_append]
    have h2 : (Prophet.predict (Prophet.fit comps df) (futureDates df)).length = 365 := by
      simp [Prophet.predict, futureDates]
    rw [h2, Nat.add_sub_cancel]
    exact List.drop_left _ _
  refine ⟨hzoom, ?_⟩
  rw [hzoom]
  simp [fig2Data, Prophet.predict, Prophet.fit, List.map_map, Function.comp_def]

end DataFarm
